import Mathlib

/-!
# OfficesMap (`src/app.py`) — a shallow embedding and its verification

This file embeds the core logic of `src/app.py` (an office-map visualization
app) in Lean 4 and proves the specification's claims about it.

Modelling conventions:
* Python scalars are the inductive `Value` below; Python `float` is `PyFloat`,
  with finite values carried exactly as rationals (the spec's claims only
  exercise values that binary64 represents exactly, so no rounding is
  modelled), plus `nan` and signed infinities.
* A Python `dict` (one office record) is an association list
  `Record = List (String × Value)` with first-match lookup; `pySet` models
  item assignment `r[k] = v` (updating the existing key in place, else
  appending, as insertion-ordered Python dicts do).
* Fallible Python code is embedded in `Except PyErr`; an uncaught exception
  is an `Except.error`.
* Library calls (`pd.isna`, `float(...)`, `str.lower`, truthiness) are
  modelled by the functions `pdIsnaBool`, `pyFloatOf`/`parseFloat`,
  `Char.toLower`-mapping and `pyTruthy`, each documented at its definition
  with the subset of library behaviour it reproduces.
-/

/-- A Python `float`: exact finite value (see header note), signed infinity,
or NaN.  `float("nan")` and `float("inf")` produce the latter two. -/
inductive PyFloat where
  | finite (q : ℚ)
  | inf (neg : Bool)
  | nan
deriving DecidableEq, Repr

/-- The Python values that can appear as a field of an office record read
from YAML: strings, ints, floats, booleans, `None`, and lists. -/
inductive Value where
  | str (s : String)
  | int (n : ℤ)
  | num (p : PyFloat)
  | bool (b : Bool)
  | none
  | list (vs : List Value)

/-- The Python exceptions the embedded code can raise. -/
inductive PyErr where
  | valueError
  | typeError
  | keyError
  | zeroDivisionError
deriving DecidableEq, Repr

/-- One office record: a Python dict as an insertion-ordered association
list (first-match lookup). -/
abbrev Record := List (String × Value)

/-- `r[k] = v`: replace the value of an existing key in place, else append
(Python dicts keep insertion order, and assignment keeps the key's slot). -/
def pySet (r : Record) (k : String) (v : Value) : Record :=
  match r with
  | [] => [(k, v)]
  | (k', v') :: rest => if k' = k then (k, v) :: rest else (k', v') :: pySet rest k v

/-- `r.get(k)` with Python's default `None`. -/
def pyGet (r : Record) (k : String) : Value :=
  (List.lookup k r).getD Value.none

/-- `r.get(k, d)`. -/
def pyGetD (r : Record) (k : String) (d : Value) : Value :=
  (List.lookup k r).getD d

/-- `r[k]`: `KeyError` when the key is absent. -/
def pyGetItem (r : Record) (k : String) : Except PyErr Value :=
  match List.lookup k r with
  | some v => .ok v
  | Option.none => .error .keyError

/-- Python truthiness `bool(v)` for the values of `Value`: `None`, `0`,
`0.0`, `""`, `[]` and `False` are falsy; everything else (NaN and the
infinities included) is truthy. -/
def pyTruthy : Value → Bool
  | .none => false
  | .bool b => b
  | .int n => n != 0
  | .num (.finite q) => q != 0
  | .num _ => true
  | .str s => !s.isEmpty
  | .list vs => !vs.isEmpty

/-- `pd.isna` on a scalar: true exactly for `None` and float NaN (numbers,
strings — even `"nan"` — booleans and so on are not NA). -/
def isnaScalar : Value → Bool
  | .none => true
  | .num .nan => true
  | _ => false

/-- `bool(pd.isna(v))` as evaluated by the `if` condition in
`validate_records`.  On a scalar, `pd.isna` returns a plain bool.  On a
list, `pd.isna` returns a numpy bool array, and taking its truth value
raises `ValueError` ("the truth value of an array ... is ambiguous") unless
the array has exactly one element, in which case `bool(...)` is that
element.  Nested lists (multi-dimensional arrays) are modelled as erroring;
no claim exercises them. -/
def pdIsnaBool : Value → Except PyErr Bool
  | .list [v] =>
    match v with
    | .list _ => .error .valueError
    | w => .ok (isnaScalar w)
  | .list _ => .error .valueError
  | v => .ok (isnaScalar v)

/-- Python's whitespace characters for `str.strip()` as `float(...)` applies
it. -/
def pyIsSpace (c : Char) : Bool :=
  c = ' ' || c = '\t' || c = '\n' || c = '\r' || c = '\x0b' || c = '\x0c'

/-- Strip leading and trailing whitespace from a character list. -/
def stripChars (cs : List Char) : List Char :=
  ((cs.dropWhile pyIsSpace).reverse.dropWhile pyIsSpace).reverse

/-- The numeric value of a string of decimal digits. -/
def digitsToNat (ds : List Char) : ℕ :=
  ds.foldl (fun a c => 10 * a + (c.toNat - 48)) 0

/-- The optional exponent tail of a float literal (input already
lower-cased): empty, or `e`, an optional sign and at least one digit. -/
def parseExpPart (mant : ℚ) : List Char → Option ℚ
  | [] => some mant
  | 'e' :: es =>
    let se : Bool × List Char :=
      match es with
      | '+' :: t => (false, t)
      | '-' :: t => (true, t)
      | t => (false, t)
    if se.2.isEmpty || !se.2.all Char.isDigit then Option.none
    else if se.1 then some (mant / (10 : ℚ) ^ digitsToNat se.2)
    else some (mant * (10 : ℚ) ^ digitsToNat se.2)
  | _ => Option.none

/-- An unsigned decimal float literal (already lower-cased):
`digits [. digits] [exponent]` with at least one mantissa digit. -/
def parseUnsignedDec (cs : List Char) : Option ℚ :=
  let ip := cs.takeWhile Char.isDigit
  let rest1 := cs.dropWhile Char.isDigit
  match rest1 with
  | [] => if ip.isEmpty then Option.none else some ((digitsToNat ip : ℚ))
  | '.' :: rest2 =>
    let fp := rest2.takeWhile Char.isDigit
    let rest3 := rest2.dropWhile Char.isDigit
    if ip.isEmpty && fp.isEmpty then Option.none
    else parseExpPart ((digitsToNat ip : ℚ) + (digitsToNat fp : ℚ) / (10 : ℚ) ^ fp.length) rest3
  | 'e' :: _ => if ip.isEmpty then Option.none else parseExpPart (digitsToNat ip : ℚ) rest1
  | _ => Option.none

/-- Python `float(s)` on a string: strip whitespace, take an optional sign,
then case-insensitively accept `nan`, `inf`/`infinity`, or a decimal
literal; anything else is a `ValueError` (`Option.none` here).  In
particular `float("nan")` and `float("inf")` SUCCEED, producing the
non-finite floats — `pd.isna` does not flag those strings, so such records
pass validation.  (Digit-group underscores and unicode digits are not
modelled; no claim uses them.) -/
def parseFloat (s : String) : Option PyFloat :=
  let cs := stripChars (s.toList.map Char.toLower)
  let sb : Bool × List Char :=
    match cs with
    | '+' :: t => (false, t)
    | '-' :: t => (true, t)
    | t => (false, t)
  if sb.2 = "nan".toList then some PyFloat.nan
  else if sb.2 = "inf".toList || sb.2 = "infinity".toList then some (.inf sb.1)
  else (parseUnsignedDec sb.2).map (fun q => .finite (if sb.1 then -q else q))

/-- Python `float(v)`: identity on floats, exact on ints and bools, string
parsing via `parseFloat` (`ValueError` on failure), `TypeError` on `None`
and lists. -/
def pyFloatOf : Value → Except PyErr PyFloat
  | .num p => .ok p
  | .int n => .ok (.finite (n : ℚ))
  | .bool b => .ok (.finite (if b then 1 else 0))
  | .str s =>
    match parseFloat s with
    | some p => .ok p
    | Option.none => .error .valueError
  | .none => .error .typeError
  | .list _ => .error .typeError

/-! ## `validate_records` (src/app.py lines 42-59) -/

def REQUIRED_FOR_MARKER : List String := ["latitude", "longitude", "city"]

def REQUIRED_FOR_CARD : List String := ["nome", "region", "CapcoHub", "contact"]

/-- `if field not in r or pd.isna(r.get(field))`: a field is missing when
absent, or present with an NA value (the `or` short-circuits, so `pd.isna`
only runs on present fields). -/
def fieldMissing (r : Record) (f : String) : Except PyErr Bool :=
  match List.lookup f r with
  | Option.none => .ok true
  | some v => pdIsnaBool v

/-- The inner `for field in ...` loop of `validate_records`: collect the
missing field names in iteration order. -/
def missingFieldsFrom (r : Record) : List String → Except PyErr (List String)
  | [] => .ok []
  | f :: fs => do
    let b ← fieldMissing r f
    let rest ← missingFieldsFrom r fs
    pure (if b then f :: rest else rest)

/-- The full `missing` list for one record: the required marker and card
fields in order, then the address check, which appends the literal
`"adress/address"` when neither spelling is a key. -/
def missingFields (r : Record) : Except PyErr (List String) := do
  let ms ← missingFieldsFrom r (REQUIRED_FOR_MARKER ++ REQUIRED_FOR_CARD)
  pure (if (List.lookup "adress" r).isNone && (List.lookup "address" r).isNone
        then ms ++ ["adress/address"] else ms)

/-- The `try` block `r["latitude"] = float(r["latitude"]); r["longitude"] =
float(r["longitude"])`: returns the record as left by the block (mutations
before the failing statement persist) and whether it completed. -/
def tryCoerceLatLon (r : Record) : Record × Bool :=
  match pyGetItem r "latitude" with
  | .error _ => (r, false)
  | .ok lv =>
    match pyFloatOf lv with
    | .error _ => (r, false)
    | .ok la =>
      let r1 := pySet r "latitude" (.num la)
      match pyGetItem r1 "longitude" with
      | .error _ => (r1, false)
      | .ok lov =>
        match pyFloatOf lov with
        | .error _ => (r1, false)
        | .ok lo => (pySet r1 "longitude" (.num lo), true)

/-- The outcome of one iteration of the validation loop: the record was kept
(in its coerced form), or rejected with one error message (the record as the
iteration left it — possibly with `latitude` already coerced). -/
inductive StepRes where
  | valid (r : Record)
  | invalid (msg : String) (r : Record)

/-- One iteration of the `for i, r in enumerate(recs, start=1)` loop of
`validate_records` (`i` is the 1-based position). -/
def validateStep (i : ℕ) (r : Record) : Except PyErr StepRes :=
  match missingFields r with
  | .error e => .error e
  | .ok ms =>
    if ms.isEmpty then
      match tryCoerceLatLon r with
      | (r', true) => .ok (.valid r')
      | (r', false) =>
        .ok (.invalid ("Item " ++ toString i ++ ": latitude/longitude inválidas") r')
    else
      .ok (.invalid ("Item " ++ toString i ++ ": faltando campos " ++
        String.intercalate ", " ms) r)

/-- The loop of `validate_records` from position `i` on.  Besides the
returned `(valids, errors)` pair, the third component is the caller's record
list as the loop leaves it (the records are mutated in place, so rejected
records stay in the caller's list, and accepted records appear both there
and in `valids`). -/
def validateAux (i : ℕ) : List Record → Except PyErr (List Record × List String × List Record)
  | [] => .ok ([], [], [])
  | r :: rest =>
    match validateStep i r with
    | .error e => .error e
    | .ok step =>
      match validateAux (i + 1) rest with
      | .error e => .error e
      | .ok (v, errs, f) =>
        match step with
        | .valid r' => .ok (r' :: v, errs, r' :: f)
        | .invalid msg r'' => .ok (v, msg :: errs, r'' :: f)

/-- `validate_records(recs)`: `(valids, errors)` plus the post-state of the
caller's list (see `validateAux`).  An `Except.error` is an uncaught
exception escaping the function. -/
def validateRecords (recs : List Record) : Except PyErr (List Record × List String × List Record) :=
  validateAux 1 recs

/-! ## `compute_map_center` (src/app.py lines 61-63) -/

/-- Python float addition, exact on the finite values (see header note):
NaN absorbs, opposite infinities give NaN. -/
def PyFloat.add : PyFloat → PyFloat → PyFloat
  | .nan, _ => .nan
  | _, .nan => .nan
  | .inf s, .inf t => if s = t then .inf s else .nan
  | .inf s, .finite _ => .inf s
  | .finite _, .inf t => .inf t
  | .finite a, .finite b => .finite (a + b)

/-- Python float division with a nonzero divisor (the zero-divisor case is
`ZeroDivisionError`, raised by `pyTrueDiv` before this runs).  Signed zero
is not modelled. -/
def PyFloat.div : PyFloat → PyFloat → PyFloat
  | .nan, _ => .nan
  | _, .nan => .nan
  | .inf _, .inf _ => .nan
  | .inf s, .finite b => .inf (xor s (decide (b < 0)))
  | .finite _, .inf _ => .finite 0
  | .finite a, .finite b => .finite (a / b)

/-- Python `bool` is a subtype of `int`: arithmetic sees `True` as `1`. -/
def asNum : Value → Value
  | .bool b => .int (if b then 1 else 0)
  | v => v

/-- Python `+` on numbers: int preserving on two ints, float otherwise,
`TypeError` on non-numeric operands (bools count as ints). -/
def pyAdd (a b : Value) : Except PyErr Value :=
  match asNum a, asNum b with
  | .int x, .int y => .ok (.int (x + y))
  | .int x, .num p => .ok (.num (PyFloat.add (.finite x) p))
  | .num p, .int y => .ok (.num (PyFloat.add p (.finite y)))
  | .num p, .num q => .ok (.num (PyFloat.add p q))
  | _, _ => .error .typeError

/-- Python `sum(vs)`: fold `+` starting from the int `0`. -/
def pySum : List Value → Except PyErr Value
  | [] => .ok (.int 0)
  | v :: vs => do
    let acc ← pySum' (Value.int 0) (v :: vs)
    pure acc
where
  /-- The running fold of `sum`. -/
  pySum' (acc : Value) : List Value → Except PyErr Value
    | [] => .ok acc
    | v :: vs => do
      let acc' ← pyAdd acc v
      pySum' acc' vs

/-- A numeric value as a float, for `/`'s operand conversion. -/
def toPyFl : Value → Option PyFloat
  | .int n => some (.finite n)
  | .num p => some p
  | .bool b => some (.finite (if b then 1 else 0))
  | _ => Option.none

/-- Python true division `a / b`: float result; `ZeroDivisionError` on a
zero divisor (Python raises even for float operands); `TypeError` on
non-numeric operands. -/
def pyTrueDiv (a b : Value) : Except PyErr Value :=
  match toPyFl a, toPyFl b with
  | some p, some q =>
    if q = PyFloat.finite 0 then .error .zeroDivisionError
    else .ok (.num (PyFloat.div p q))
  | _, _ => .error .typeError

/-- `compute_map_center(recs)`: build the latitude and longitude lists
(`KeyError` surfaces if a record lacks one), then return
`(sum(lats)/len(lats), sum(lons)/len(lons))`. -/
def computeMapCenter (recs : List Record) : Except PyErr (Value × Value) := do
  let lats ← recs.mapM (fun r => pyGetItem r "latitude")
  let lons ← recs.mapM (fun r => pyGetItem r "longitude")
  let sLat ← pySum lats
  let cLat ← pyTrueDiv sLat (.int lats.length)
  let sLon ← pySum lons
  let cLon ← pyTrueDiv sLon (.int lons.length)
  pure (cLat, cLon)

/-! ## `_is_direct_image` (src/app.py lines 65-68) -/

def IMAGE_EXTS : List String := [".png", ".jpg", ".jpeg", ".gif", ".webp", ".bmp", ".svg"]

/-- `_is_direct_image(url)`: `False` for non-strings and falsy values (of
strings, exactly `""` is falsy); else lower-case the string
(`Char.toLower` is the ASCII mapping `str.lower` applies to ASCII text;
non-ASCII case folding is not modelled), drop everything from the first
`?` on (`split("?")[0]`) and test `endswith` against the extension tuple. -/
def isDirectImage : Value → Bool
  | .str s =>
    if s.isEmpty then false
    else IMAGE_EXTS.any (fun e =>
      e.toList.isSuffixOf ((s.toList.map Char.toLower).takeWhile (fun c => c != '?')))
  | _ => false

/-! ## `build_popup_html` (src/app.py lines 70-98) -/

/-- Python `x or y`: `x` when truthy, else `y`. -/
def pyOr (a b : Value) : Value :=
  if pyTruthy a then a else b

/-- `str()` of a float.  Only the rendering of NaN, the infinities and
integral finite values is modelled exactly; Python's shortest-round-trip
decimal rendering of other floats is abstracted (no claim depends on it:
floats are only interpolated into HTML text). -/
def floatRepr : PyFloat → String
  | .nan => "nan"
  | .inf b => if b then "-inf" else "inf"
  | .finite q => if q.den = 1 then toString q.num ++ ".0" else toString q

/-- Python `str(v)` as f-string interpolation applies it.  Strings
interpolate as themselves; every claim's theorem only depends on that
case.  The list rendering is abstracted (Python shows elements' reprs). -/
def pyStrOf : Value → String
  | .str s => s
  | .int n => toString n
  | .bool b => if b then "True" else "False"
  | .none => "None"
  | .num p => floatRepr p
  | .list vs => "[" ++ String.intercalate ", " (vs.map (fun _ => "…")) ++ "]"

/-- The image block of the popup when `show_img` holds:
`'<img src="' + img_url + '" alt="office" ... />'`. -/
def popupImgTag (imgUrl : Value) : String :=
  "<img src=\"" ++ pyStrOf imgUrl ++
  "\" alt=\"office\" style=\"max-width:100%; max-height:140px; display:block;\" />"

/-- The image block of the popup when `show_img` fails: the placeholder
telling the user a direct image URL is required. -/
def popupNoImageDiv : String :=
  "<div style=\"color:#999;\">Sem imagem (use URL direta de imagem)</div>"

/-- The popup f-string's text before the image conditional. -/
def popupPre : String :=
  "\n    <div style=\"font-family: Inter, system-ui, -apple-system, Segoe UI, Roboto, Arial; width: 320px;\">\n      <div style=\"border-radius: 16px; box-shadow: 0 8px 24px rgba(0,0,0,0.12); overflow: hidden; border: 1px solid #e6e6e6;\">\n        <div style=\"height: 140px; background:#f6f6f6; display:flex; align-items:center; justify-content:center;\">\n          "

/-- The popup f-string's text after the image conditional: locality line,
title, address, contact and the CapcoHub link, interpolating the record's
fields as `build_popup_html` reads them. -/
def popupTail (r : Record) : String :=
  let city := pyGetD r "city" (.str "")
  let nome := pyGetD r "nome" (.str "")
  let region := pyGetD r "region" (.str "")
  let hub := pyGetD r "CapcoHub" (.str "")
  let address := pyOr (pyOr (pyGet r "adress") (pyGet r "address")) (.str "")
  let contact := pyGetD r "contact" (.str "")
  "\n        </div>\n        <div style=\"padding: 12px 14px;\">\n          <div style=\"font-size: 14px; color:#6b7280; margin-bottom: 2px;\">" ++
  pyStrOf city ++ " · " ++ pyStrOf region ++
  "</div>\n          <div style=\"font-weight: 700; font-size: 16px; line-height: 1.2; margin-bottom: 8px;\">" ++
  pyStrOf nome ++
  "</div>\n          <div style=\"font-size: 13px; color:#111827; margin-bottom: 6px;\">📍 " ++
  pyStrOf address ++
  "</div>\n          <div style=\"font-size: 13px; color:#111827; margin-bottom: 6px;\">☎️ " ++
  pyStrOf contact ++
  "</div>\n          <div style=\"margin-top: 8px;\">\n            <a href=\"" ++
  pyStrOf hub ++
  "\" target=\"_blank\" rel=\"noopener noreferrer\" style=\"text-decoration:none; font-size: 13px; font-weight:600; color:#2563eb;\">Abrir CapcoHub →</a>\n          </div>\n        </div>\n      </div>\n    </div>\n    "

/-- `build_popup_html(r)`: the popup f-string, with the image region chosen
by `show_img = _is_direct_image(r.get("card_image_url", ""))`. -/
def buildPopupHtml (r : Record) : String :=
  let img_url := pyGetD r "card_image_url" (.str "")
  let show_img := isDirectImage img_url
  popupPre ++ (if show_img then popupImgTag img_url else popupNoImageDiv) ++ popupTail r

/-! ## `build_round_logo_divicon` (src/app.py lines 100-121) -/

/-- The fields `folium.DivIcon` is called with. -/
structure DivIcon where
  html : String
  icon_size : ℤ × ℤ
  icon_anchor : ℤ × ℤ
  class_name : String

/-- The round-image html branch of `build_round_logo_divicon`. -/
def roundIconImgHtml (logoUrl : Value) (diameter : ℤ) : String :=
  "\n        <div style=\"width:" ++ toString diameter ++ "px;height:" ++ toString diameter ++
  "px;border-radius:50%;\n                    overflow:hidden; box-shadow:0 0 0 2px rgba(0,0,0,0.12), 0 6px 14px rgba(0,0,0,0.2);\">\n          <img src=\"" ++
  pyStrOf logoUrl ++
  "\" style=\"width:100%;height:100%;object-fit:cover;display:block;\" />\n        </div>\n        "

/-- The neutral grey-circle html branch of `build_round_logo_divicon`. -/
def roundIconCircleHtml (diameter : ℤ) : String :=
  "\n        <div style=\"width:" ++ toString diameter ++ "px;height:" ++ toString diameter ++
  "px;border-radius:50%;\n                    background:#c4c4c4; box-shadow:0 0 0 2px rgba(0,0,0,0.12), 0 6px 14px rgba(0,0,0,0.2);\">\n        </div>\n        "

/-- `build_round_logo_divicon(logo_url, size)`: pick the html by
`logo_url and _is_direct_image(logo_url)` and return the DivIcon with
`icon_size=(diameter, diameter)` and the centred anchor
`(diameter // 2, diameter // 2)` (`Int.fdiv` is Python's floor `//`). -/
def buildRoundLogoDivicon (logo_url : Value) (size : ℤ) : DivIcon :=
  let diameter := size
  let radius := Int.fdiv diameter 2
  let html :=
    if pyTruthy logo_url && isDirectImage logo_url then roundIconImgHtml logo_url diameter
    else roundIconCircleHtml diameter
  DivIcon.mk html (diameter, diameter) (radius, radius) "capco-round-icon"

/-! ## The marker assembly loop (src/app.py lines 144-157) -/

/-- What one `folium.Marker(...)` call of the assembly loop carries. -/
structure Marker where
  location : Value × Value
  popup_html : String
  tooltip : String
  icon : DivIcon

/-- One iteration of the assembly loop over `valids`: popup from the
record, icon from `rec.get("icon_image_url")`, tooltip
`f"{rec.get('city', '')} · {rec.get('nome', '')}"`, marker at
`[rec["latitude"], rec["longitude"]]`. -/
def buildMarker (iconSize : ℤ) (rec : Record) : Except PyErr Marker :=
  let popupHtml := buildPopupHtml rec
  let iconUrl := pyGet rec "icon_image_url"
  let divIcon := buildRoundLogoDivicon iconUrl iconSize
  let tooltip := pyStrOf (pyGetD rec "city" (.str "")) ++ " · " ++ pyStrOf (pyGetD rec "nome" (.str ""))
  match pyGetItem rec "latitude", pyGetItem rec "longitude" with
  | .ok la, .ok lo => .ok (Marker.mk (la, lo) popupHtml tooltip divIcon)
  | .error e, _ => .error e
  | _, .error e => .error e

/-- The assembly loop `for rec in valids: ... .add_to(m)`: one marker per
record, in list order. -/
def buildMarkers (iconSize : ℤ) : List Record → Except PyErr (List Marker)
  | [] => .ok []
  | r :: rest =>
    match buildMarker iconSize r with
    | .error e => .error e
    | .ok m =>
      match buildMarkers iconSize rest with
      | .error e => .error e
      | .ok ms => .ok (m :: ms)

/-! ## Helper lemmas -/

theorem lookup_pySet_self (r : Record) (k : String) (v : Value) :
    List.lookup k (pySet r k v) = some v := by
  induction r with
  | nil => simp [pySet, List.lookup_cons]
  | cons p rest ih =>
    obtain ⟨k', v'⟩ := p
    by_cases h : k' = k
    · subst h; simp [pySet, List.lookup_cons]
    · simp [pySet, h, List.lookup_cons, beq_eq_false_iff_ne.mpr (Ne.symm h), ih]

theorem lookup_pySet_ne (r : Record) (k k' : String) (v : Value) (h : k' ≠ k) :
    List.lookup k' (pySet r k v) = List.lookup k' r := by
  induction r with
  | nil => simp [pySet, List.lookup_cons, beq_eq_false_iff_ne.mpr h]
  | cons p rest ih =>
    obtain ⟨k₀, v₀⟩ := p
    by_cases h0 : k₀ = k
    · subst h0
      simp [pySet, List.lookup_cons, beq_eq_false_iff_ne.mpr h]
    · by_cases h1 : k' = k₀
      · subst h1
        simp [pySet, h0, List.lookup_cons]
      · simp [pySet, h0, List.lookup_cons, beq_eq_false_iff_ne.mpr h1, ih]

theorem pyGetItem_ok_iff (r : Record) (k : String) (v : Value) :
    pyGetItem r k = .ok v ↔ List.lookup k r = some v := by
  unfold pyGetItem
  cases List.lookup k r <;> simp

theorem tryCoerce_true (r r₂ : Record) (h : tryCoerceLatLon r = (r₂, true)) :
    ∃ lv la lov lo,
      List.lookup "latitude" r = some lv ∧ pyFloatOf lv = .ok la ∧
      List.lookup "longitude" r = some lov ∧ pyFloatOf lov = .ok lo ∧
      r₂ = pySet (pySet r "latitude" (.num la)) "longitude" (.num lo) := by
  unfold tryCoerceLatLon at h
  cases hg1 : pyGetItem r "latitude" with
  | error e => rw [hg1] at h; simp at h
  | ok lv =>
    rw [hg1] at h; dsimp only at h
    cases h2 : pyFloatOf lv with
    | error e => rw [h2] at h; simp at h
    | ok la =>
      rw [h2] at h; dsimp only at h
      cases hg2 : pyGetItem (pySet r "latitude" (Value.num la)) "longitude" with
      | error e => rw [hg2] at h; simp at h
      | ok lov =>
        rw [hg2] at h; dsimp only at h
        cases h4 : pyFloatOf lov with
        | error e => rw [h4] at h; simp at h
        | ok lo =>
          rw [h4] at h; dsimp only at h
          simp only [Prod.mk.injEq] at h
          refine ⟨lv, la, lov, lo, (pyGetItem_ok_iff _ _ _).mp hg1, h2, ?_, h4, h.1.symm⟩
          rw [← lookup_pySet_ne r "latitude" "longitude" (Value.num la) (by decide)]
          exact (pyGetItem_ok_iff _ _ _).mp hg2

theorem validateStep_valid (i : ℕ) (r r' : Record)
    (h : validateStep i r = .ok (.valid r')) :
    missingFields r = .ok [] ∧
    ∃ lv la lov lo,
      List.lookup "latitude" r = some lv ∧ pyFloatOf lv = .ok la ∧
      List.lookup "longitude" r = some lov ∧ pyFloatOf lov = .ok lo ∧
      r' = pySet (pySet r "latitude" (.num la)) "longitude" (.num lo) := by
  cases hm : missingFields r with
  | error e => simp only [validateStep, hm] at h; exact (Except.noConfusion h)
  | ok ms =>
    simp only [validateStep, hm] at h
    by_cases hms : ms.isEmpty
    · have hnil : ms = [] := List.isEmpty_iff.mp hms
      subst hnil
      rw [if_pos hms] at h
      rcases htc : tryCoerceLatLon r with ⟨r₂, b⟩
      rw [htc] at h
      cases b with
      | false => simp at h
      | true =>
        dsimp only at h
        simp only [Except.ok.injEq, StepRes.valid.injEq] at h
        subst h
        exact ⟨rfl, tryCoerce_true r r₂ htc⟩
    · rw [if_neg hms] at h
      simp at h

/-- The workhorse: everything a successful `validateAux` run guarantees —
the count equation, the post-state list mirroring the input positionally,
`valids` a sublist of the post-state, and each valid record's origin. -/
theorem validateAux_ok_spec (recs : List Record) :
    ∀ (i : ℕ) (v : List Record) (e : List String) (f : List Record),
      validateAux i recs = .ok (v, e, f) →
      v.length + e.length = recs.length ∧
      f.length = recs.length ∧
      List.Sublist v f ∧
      ∀ r' ∈ v, ∃ (j : ℕ) (hj : j < recs.length) (hf : j < f.length),
        f.get ⟨j, hf⟩ = r' ∧ validateStep (i + j) (recs.get ⟨j, hj⟩) = .ok (.valid r') := by
  induction recs with
  | nil =>
    intro i v e f h
    simp only [validateAux, Except.ok.injEq, Prod.mk.injEq] at h
    obtain ⟨hv, he, hf⟩ := h
    subst hv; subst he; subst hf
    refine ⟨rfl, rfl, List.Sublist.refl _, ?_⟩
    intro r' hr'
    simp at hr'
  | cons r rest ih =>
    intro i v e f h
    simp only [validateAux] at h
    cases hs : validateStep i r with
    | error err => rw [hs] at h; exact (Except.noConfusion h)
    | ok step =>
      rw [hs] at h; dsimp only at h
      cases ha : validateAux (i + 1) rest with
      | error err => rw [ha] at h; exact (Except.noConfusion h)
      | ok t =>
        rw [ha] at h; dsimp only at h
        obtain ⟨v₀, e₀, f₀⟩ := t
        obtain ⟨hcnt, hflen, hsub, hmem⟩ := ih (i + 1) v₀ e₀ f₀ ha
        cases step with
        | valid r₁ =>
          dsimp only at h
          simp only [Except.ok.injEq, Prod.mk.injEq] at h
          obtain ⟨hv, he, hf⟩ := h
          subst hv; subst he; subst hf
          refine ⟨by simp only [List.length_cons]; omega, by simp [hflen], List.Sublist.cons₂ r₁ hsub, ?_⟩
          intro r' hr'
          rcases List.mem_cons.mp hr' with hr' | hr'
          · subst hr'
            exact ⟨0, by simp, by simp,
              rfl, by simpa using hs⟩
          · obtain ⟨j, hj, hfj, hget, hstep⟩ := hmem r' hr'
            refine ⟨j + 1, by simpa using hj, by simpa using hfj, ?_, ?_⟩
            · simpa using hget
            · have : i + (j + 1) = i + 1 + j := by omega
              rw [this]
              simpa using hstep
        | invalid msg r₂ =>
          dsimp only at h
          simp only [Except.ok.injEq, Prod.mk.injEq] at h
          obtain ⟨hv, he, hf⟩ := h
          subst hv; subst he; subst hf
          refine ⟨by simp only [List.length_cons]; omega, by simp [hflen], hsub.cons r₂, ?_⟩
          intro r' hr'
          obtain ⟨j, hj, hfj, hget, hstep⟩ := hmem r' hr'
          refine ⟨j + 1, by simpa using hj, by simpa using hfj, ?_, ?_⟩
          · simpa using hget
          · have : i + (j + 1) = i + 1 + j := by omega
            rw [this]
            simpa using hstep

/-! ## Concrete records used as witnesses -/

/-- A fully valid office record (coordinates already floats, so coercion
leaves the record unchanged). -/
def officeOk : Record :=
  [("latitude", Value.num (.finite 10)), ("longitude", Value.num (.finite 20)),
   ("city", Value.str "Lisbon"), ("nome", Value.str "HQ"), ("region", Value.str "EU"),
   ("CapcoHub", Value.str "https://hub.example"), ("contact", Value.str "x@y"),
   ("address", Value.str "Main St 1")]

/-- A second valid record, at (20, 40). -/
def officeOk2 : Record :=
  [("latitude", Value.num (.finite 20)), ("longitude", Value.num (.finite 40)),
   ("city", Value.str "Porto"), ("nome", Value.str "Lab"), ("region", Value.str "EU"),
   ("CapcoHub", Value.str "https://hub2.example"), ("contact", Value.str "z@y"),
   ("address", Value.str "Side St 2")]

/-- A record missing only `contact`. -/
def officeNoContact : Record :=
  [("latitude", Value.num (.finite 1)), ("longitude", Value.num (.finite 2)),
   ("city", Value.str "Faro"), ("nome", Value.str "Desk"), ("region", Value.str "EU"),
   ("CapcoHub", Value.str "https://hub3.example"), ("address", Value.str "Rua 3")]

/-- All fields present and non-NA, but `latitude` is the non-numeric string
`"not-a-number"`. -/
def officeBadLat : Record :=
  [("latitude", Value.str "not-a-number"), ("longitude", Value.num (.finite 2)),
   ("city", Value.str "Faro"), ("nome", Value.str "Desk"), ("region", Value.str "EU"),
   ("CapcoHub", Value.str "https://hub3.example"), ("contact", Value.str "w@y"),
   ("address", Value.str "Rua 3")]

/-- All fields present and non-NA, but `latitude` is the STRING `"nan"`:
`pd.isna("nan")` is false and `float("nan")` succeeds, so validation
accepts this record with a NaN latitude. -/
def officeNanLat : Record :=
  [("latitude", Value.str "nan"), ("longitude", Value.num (.finite 0)),
   ("city", Value.str "X"), ("nome", Value.str "N"), ("region", Value.str "R"),
   ("CapcoHub", Value.str "H"), ("contact", Value.str "C"), ("address", Value.str "A")]

/-- `officeNanLat` after coercion: latitude became the float NaN. -/
def officeNanLat' : Record :=
  [("latitude", Value.num PyFloat.nan), ("longitude", Value.num (.finite 0)),
   ("city", Value.str "X"), ("nome", Value.str "N"), ("region", Value.str "R"),
   ("CapcoHub", Value.str "H"), ("contact", Value.str "C"), ("address", Value.str "A")]

/-- A record whose `latitude` is a two-element list: `pd.isna` returns a
two-element array and its truth test raises `ValueError`. -/
def officeListLat : Record :=
  [("latitude", Value.list [Value.num (.finite 1), Value.num (.finite 2)])]

/-! ## Claims C1-C4, C10: the validator -/

/-- C1: for every input list, a returning `validate_records` yields
`(valids, errors)` with `valids.length + errors.length` equal to the input
length — each rejected record contributes exactly one error string. -/
theorem validate_records_count (recs v f : List Record) (e : List String)
    (h : validateRecords recs = .ok (v, e, f)) :
    v.length + e.length = recs.length :=
  (validateAux_ok_spec recs 1 v e f h).1

/-- C1 witness: one valid and one rejected record — one valid output, one
error string, counts adding to the input count. -/
theorem validate_records_count_witness : (1 : ℕ) + 1 = 2 :=
  validate_records_count [officeOk, officeNoContact] [officeOk]
    [officeOk, officeNoContact] ["Item 2: faltando campos contact"] (by rfl)

/-- C2: with `missing` computed as `.ok ms` for a record, (a) when both
address spellings are absent, `ms` names the literal `"adress/address"`;
(b) a record with any missing field is rejected with exactly the one
aggregated message naming its 1-based position and the comma-joined missing
names, the record untouched (coercion not attempted); (c) a record with no
missing field whose coordinate coercion fails gets the distinct
invalid-latitude/longitude message for its index. -/
theorem validate_step_error_messages (i : ℕ) (r : Record) (ms : List String)
    (h : missingFields r = .ok ms) :
    ((List.lookup "adress" r).isNone = true → (List.lookup "address" r).isNone = true →
      "adress/address" ∈ ms) ∧
    (ms ≠ [] → validateStep i r =
      .ok (.invalid ("Item " ++ toString i ++ ": faltando campos " ++
        String.intercalate ", " ms) r)) ∧
    (ms = [] → (tryCoerceLatLon r).2 = false → validateStep i r =
      .ok (.invalid ("Item " ++ toString i ++ ": latitude/longitude inválidas")
        (tryCoerceLatLon r).1)) := by
  refine ⟨?_, ?_, ?_⟩
  · intro h1 h2
    unfold missingFields at h
    cases hb : missingFieldsFrom r (REQUIRED_FOR_MARKER ++ REQUIRED_FOR_CARD) with
    | error err => rw [hb] at h; exact (Except.noConfusion h)
    | ok base =>
      rw [hb] at h
      simp only [bind, Except.bind, pure, Except.pure, h1, h2, Bool.and_self,
        if_pos, Except.ok.injEq] at h
      subst h
      simp
  · intro hne
    have hF : ms.isEmpty = false := by
      rw [← Bool.not_eq_true, List.isEmpty_iff]; exact hne
    simp only [validateStep, h, hF]
    rfl
  · intro hnil htc
    subst hnil
    simp only [validateStep, h]
    rcases hc : tryCoerceLatLon r with ⟨r₂, b⟩
    rw [hc] at htc
    dsimp only at htc
    subst htc
    simp

/-- C2 witness: a record with `latitude: "not-a-number"` and every other
field valid is rejected with the invalid-latitude/longitude error, never a
missing-field error. -/
theorem validate_step_error_messages_witness :
    validateStep 1 officeBadLat =
      .ok (.invalid "Item 1: latitude/longitude inválidas" officeBadLat) :=
  (validate_step_error_messages 1 officeBadLat [] rfl).2.2 rfl rfl

/-- C3 (the code bug at the claimed never-raises guarantee): a record whose
`latitude` holds a two-element list makes `validate_records` raise
`ValueError` — `pd.isna` returns a two-element bool array and the `if`'s
truth test on it raises — instead of returning a `(valids, errors)` pair. -/
theorem validate_records_raises_on_list_value :
    validateRecords [officeListLat] = .error .valueError := rfl

/-- C4 counterexample: the record `officeNanLat` (latitude the string
`"nan"`) is ACCEPTED by `validate_records`, and the validated record's
latitude is the float NaN — not a finite real number, contradicting the
claimed finiteness invariant. -/
theorem validate_records_accepts_nan_latitude :
    validateRecords [officeNanLat] = .ok ([officeNanLat'], [], [officeNanLat']) ∧
    List.lookup "latitude" officeNanLat' = some (Value.num PyFloat.nan) ∧
    ¬ ∃ q : ℚ, List.lookup "latitude" officeNanLat' = some (Value.num (.finite q)) := by
  refine ⟨rfl, rfl, ?_⟩
  rintro ⟨q, hq⟩
  rw [show List.lookup "latitude" officeNanLat' = some (Value.num PyFloat.nan) from rfl] at hq
  simp at hq

/-- C4 as amended: every record `validate_records` accepts carries float
values (possibly NaN or infinite, when the source spelled them as strings)
under both `latitude` and `longitude`. -/
theorem validate_records_coords_are_floats (recs v f : List Record) (e : List String)
    (h : validateRecords recs = .ok (v, e, f)) :
    ∀ r' ∈ v, (∃ p : PyFloat, List.lookup "latitude" r' = some (Value.num p)) ∧
      (∃ p : PyFloat, List.lookup "longitude" r' = some (Value.num p)) := by
  intro r' hr'
  obtain ⟨-, -, -, hmem⟩ := validateAux_ok_spec recs 1 v e f h
  obtain ⟨j, hj, hfj, -, hstep⟩ := hmem r' hr'
  obtain ⟨-, lv, la, lov, lo, -, -, -, -, hr⟩ := validateStep_valid _ _ _ hstep
  subst hr
  refine ⟨⟨la, ?_⟩, ⟨lo, lookup_pySet_self _ _ _⟩⟩
  rw [lookup_pySet_ne _ _ _ _ (by decide), lookup_pySet_self]

/-- C4 amended witness: the accepted NaN-latitude record still carries
floats under both coordinate keys. -/
theorem validate_records_coords_are_floats_witness :
    (∃ p : PyFloat, List.lookup "latitude" officeNanLat' = some (Value.num p)) ∧
    (∃ p : PyFloat, List.lookup "longitude" officeNanLat' = some (Value.num p)) :=
  validate_records_coords_are_floats [officeNanLat] [officeNanLat'] [officeNanLat'] []
    rfl officeNanLat' (by simp)

/-- C10: every record `validate_records` accepts is the caller's input
record with exactly its `latitude` and `longitude` entries replaced by
their `float(...)` coercions — every other key's value unchanged — and the
very same record sits at the original position of the caller's (mutated)
list, of which the valid output is a sublist: the validator updates the
records in place rather than copying them. -/
theorem validate_records_in_place_update (recs v f : List Record) (e : List String)
    (h : validateRecords recs = .ok (v, e, f)) :
    ∀ r' ∈ v, ∃ (j : ℕ) (hj : j < recs.length) (hf : j < f.length),
      f.get ⟨j, hf⟩ = r' ∧
      ∃ la lo : PyFloat,
        (∃ lv, List.lookup "latitude" (recs.get ⟨j, hj⟩) = some lv ∧ pyFloatOf lv = .ok la) ∧
        (∃ lov, List.lookup "longitude" (recs.get ⟨j, hj⟩) = some lov ∧ pyFloatOf lov = .ok lo) ∧
        r' = pySet (pySet (recs.get ⟨j, hj⟩) "latitude" (.num la)) "longitude" (.num lo) ∧
        ∀ k : String, k ≠ "latitude" → k ≠ "longitude" →
          List.lookup k r' = List.lookup k (recs.get ⟨j, hj⟩) := by
  intro r' hr'
  obtain ⟨-, -, -, hmem⟩ := validateAux_ok_spec recs 1 v e f h
  obtain ⟨j, hj, hfj, hget, hstep⟩ := hmem r' hr'
  obtain ⟨-, lv, la, lov, lo, h1, h2, h3, h4, hr⟩ := validateStep_valid _ _ _ hstep
  refine ⟨j, hj, hfj, hget, la, lo, ⟨lv, h1, h2⟩, ⟨lov, h3, h4⟩, hr, ?_⟩
  intro k hk1 hk2
  rw [hr, lookup_pySet_ne _ _ _ _ hk2, lookup_pySet_ne _ _ _ _ hk1]

/-- C10 witness, at a concrete accepted record. -/
theorem validate_records_in_place_update_witness :
    ∃ (j : ℕ) (hj : j < ([officeOk] : List Record).length)
      (hf : j < ([officeOk] : List Record).length),
      ([officeOk] : List Record).get ⟨j, hf⟩ = officeOk ∧
      ∃ la lo : PyFloat,
        (∃ lv, List.lookup "latitude" (([officeOk] : List Record).get ⟨j, hj⟩) = some lv ∧
          pyFloatOf lv = .ok la) ∧
        (∃ lov, List.lookup "longitude" (([officeOk] : List Record).get ⟨j, hj⟩) = some lov ∧
          pyFloatOf lov = .ok lo) ∧
        officeOk = pySet (pySet (([officeOk] : List Record).get ⟨j, hj⟩) "latitude" (.num la))
          "longitude" (.num lo) ∧
        ∀ k : String, k ≠ "latitude" → k ≠ "longitude" →
          List.lookup k officeOk = List.lookup k (([officeOk] : List Record).get ⟨j, hj⟩) :=
  validate_records_in_place_update [officeOk] [officeOk] [officeOk] [] rfl officeOk
    (by simp)

/-! ## Claim C5: the map centre -/

theorem pySum_go_finite (qs : List ℚ) :
    ∀ acc : ℚ, pySum.pySum' (Value.num (.finite acc)) (qs.map (fun q => Value.num (.finite q))) =
      .ok (Value.num (.finite (acc + qs.sum))) := by
  induction qs with
  | nil => intro acc; simp [pySum.pySum']
  | cons q qs ih =>
    intro acc
    simp only [List.map_cons, pySum.pySum', pyAdd, asNum, PyFloat.add, bind, Except.bind,
      List.sum_cons]
    rw [ih (acc + q)]
    ring_nf

theorem pySum_finite (qs : List ℚ) (hne : qs ≠ []) :
    pySum (qs.map (fun q => Value.num (.finite q))) = .ok (Value.num (.finite qs.sum)) := by
  cases qs with
  | nil => exact absurd rfl hne
  | cons q qs =>
    have hstep : pySum.pySum' (Value.int 0)
        ((q :: qs).map (fun x => Value.num (.finite x))) =
        .ok (Value.num (.finite (q :: qs).sum)) := by
      simp only [List.map_cons, pySum.pySum', pyAdd, asNum, PyFloat.add, bind, Except.bind]
      rw [pySum_go_finite]
      norm_num
    simp only [List.map_cons, pySum, bind, Except.bind, pure, Except.pure] at hstep ⊢
    rw [hstep]

theorem pyTrueDiv_finite_int (s : ℚ) (n : ℤ) (hn : n ≠ 0) :
    pyTrueDiv (.num (.finite s)) (.int n) = .ok (.num (.finite (s / (n : ℚ)))) := by
  unfold pyTrueDiv toPyFl
  dsimp only
  rw [if_neg]
  · rfl
  · intro heq
    simp only [PyFloat.finite.injEq, Int.cast_eq_zero] at heq
    exact hn heq

theorem mapM_getItem (k : String) (recs : List Record) :
    ∀ qs : List ℚ,
      recs.map (List.lookup k) = qs.map (fun q => some (Value.num (.finite q))) →
      recs.mapM (fun r => pyGetItem r k) = .ok (qs.map (fun q => Value.num (.finite q))) := by
  induction recs with
  | nil =>
    intro qs h
    have : qs = [] := by
      cases qs with
      | nil => rfl
      | cons q qs => simp at h
    subst this
    rfl
  | cons r rest ih =>
    intro qs h
    cases qs with
    | nil => simp at h
    | cons q qs =>
      simp only [List.map_cons, List.cons.injEq] at h
      obtain ⟨h1, h2⟩ := h
      have hg : pyGetItem r k = .ok (Value.num (.finite q)) := (pyGetItem_ok_iff _ _ _).mpr h1
      simp only [List.map_cons, List.mapM_cons, hg, ih qs h2, bind, Except.bind,
        pure, Except.pure]

/-- C5: on a non-empty list of records whose latitudes and longitudes are
the finite floats `las` and `los`, `compute_map_center` returns exactly the
pair of arithmetic means. -/
theorem compute_map_center_mean (recs : List Record) (las los : List ℚ)
    (h1 : recs.map (List.lookup "latitude") = las.map (fun q => some (Value.num (.finite q))))
    (h2 : recs.map (List.lookup "longitude") = los.map (fun q => some (Value.num (.finite q))))
    (hne : recs ≠ []) :
    computeMapCenter recs =
      .ok (Value.num (.finite (las.sum / (las.length : ℚ))),
           Value.num (.finite (los.sum / (los.length : ℚ)))) := by
  have hlas : las ≠ [] := by
    intro hnil; subst hnil
    cases recs with
    | nil => exact hne rfl
    | cons r rest => simp at h1
  have hlos : los ≠ [] := by
    intro hnil; subst hnil
    cases recs with
    | nil => exact hne rfl
    | cons r rest => simp at h2
  have hm1 := mapM_getItem "latitude" recs las h1
  have hm2 := mapM_getItem "longitude" recs los h2
  have hlaslen : (las.length : ℤ) ≠ 0 := by
    simpa using fun h => hlas (List.length_eq_zero.mp h)
  have hloslen : (los.length : ℤ) ≠ 0 := by
    simpa using fun h => hlos (List.length_eq_zero.mp h)
  simp only [computeMapCenter, hm1, hm2, pySum_finite las hlas, pySum_finite los hlos,
    List.length_map, pyTrueDiv_finite_int las.sum (las.length : ℤ) hlaslen,
    pyTrueDiv_finite_int los.sum (los.length : ℤ) hloslen,
    bind, Except.bind, pure, Except.pure, Int.cast_natCast]

/-- C5 witness: records at (10, 20) and (20, 40) give centre (15, 30)
exactly. -/
theorem compute_map_center_mean_witness :
    computeMapCenter [officeOk, officeOk2] =
      .ok (Value.num (.finite 15), Value.num (.finite 30)) := by
  have h := compute_map_center_mean [officeOk, officeOk2] [10, 20] [20, 40] rfl rfl
    (by simp)
  norm_num at h
  exact h

/-! ## Claim C6: the direct-image classification -/

theorem charOfNat_toNat_valid (n : ℕ) (h : n.isValidChar) : (Char.ofNat n).toNat = n := by
  simp only [Char.ofNat, h, dif_pos]
  simp [Char.ofNatAux, Char.toNat, UInt32.toNat]

theorem toLower_eq_qmark (c : Char) : c.toLower = '?' ↔ c = '?' := by
  constructor
  · intro h
    unfold Char.toLower at h
    dsimp only at h
    split at h
    · exfalso
      rename_i hcond
      have hv : (c.toNat + 32).isValidChar := Or.inl (by omega)
      have hn : (Char.ofNat (c.toNat + 32)).toNat = c.toNat + 32 := charOfNat_toNat_valid _ hv
      have h2 : ('?' : Char).toNat = c.toNat + 32 := by rw [← h, hn]
      have h63 : ('?' : Char).toNat = 63 := by decide
      omega
    · exact h
  · intro h; subst h; decide

/-- Lower-casing commutes with cutting at the first `?`: `toLower` maps no
character to `?` and fixes `?` itself. -/
theorem map_toLower_takeWhile (cs : List Char) :
    (cs.map Char.toLower).takeWhile (fun c => c != '?') =
      (cs.takeWhile (fun c => c != '?')).map Char.toLower := by
  induction cs with
  | nil => rfl
  | cons c cs ih =>
    by_cases h : c = '?'
    · subst h
      have hq : Char.toLower '?' = '?' := by decide
      simp [List.takeWhile_cons, hq]
    · have h2 : c.toLower ≠ '?' := fun hh => h ((toLower_eq_qmark c).mp hh)
      simp [List.takeWhile_cons, h, h2, ih]

/-- C6: `_is_direct_image(url)` is true exactly on non-empty strings whose
portion before the first `?` ends, case-insensitively, with one of the
seven image extensions; in particular `"https://x.test/logo.PNG"` counts
and `"https://x.test/profile?id=1"` does not. -/
theorem is_direct_image_characterization :
    (∀ v : Value, isDirectImage v = true ↔
      ∃ s : String, v = Value.str s ∧ s ≠ "" ∧
        ∃ e ∈ IMAGE_EXTS,
          e.toList.isSuffixOf ((s.toList.takeWhile (fun c => c != '?')).map Char.toLower)
            = true) ∧
    isDirectImage (Value.str "https://x.test/logo.PNG") = true ∧
    isDirectImage (Value.str "https://x.test/profile?id=1") = false := by
  refine ⟨?_, rfl, rfl⟩
  intro v
  constructor
  · intro h
    cases v with
    | str s =>
      unfold isDirectImage at h
      dsimp only at h
      by_cases hse : s.isEmpty
      · rw [if_pos hse] at h
        exact absurd h (by simp)
      · rw [if_neg hse] at h
        refine ⟨s, rfl, fun hnil => hse ((String.isEmpty_iff s).mpr hnil), ?_⟩
        rw [map_toLower_takeWhile] at h
        simpa using List.any_eq_true.mp h
    | int n => exact absurd h (by simp [isDirectImage])
    | num p => exact absurd h (by simp [isDirectImage])
    | bool b => exact absurd h (by simp [isDirectImage])
    | none => exact absurd h (by simp [isDirectImage])
    | list vs => exact absurd h (by simp [isDirectImage])
  · rintro ⟨s, rfl, hs, e, he, hsuf⟩
    unfold isDirectImage
    dsimp only
    rw [if_neg (fun hempty => hs ((String.isEmpty_iff s).mp hempty))]
    rw [map_toLower_takeWhile]
    exact List.any_eq_true.mpr ⟨e, he, hsuf⟩

/-! ## Claim C7: the round icon -/

theorem isDirectImage_truthy (v : Value) (h : isDirectImage v = true) :
    pyTruthy v = true := by
  cases v with
  | str s =>
    unfold isDirectImage at h
    dsimp only at h
    by_cases hse : s.isEmpty
    · rw [if_pos hse] at h; exact absurd h (by simp)
    · simp [pyTruthy, Bool.not_eq_true] at hse ⊢
      exact hse
  | int n => exact absurd h (by simp [isDirectImage])
  | num p => exact absurd h (by simp [isDirectImage])
  | bool b => exact absurd h (by simp [isDirectImage])
  | none => exact absurd h (by simp [isDirectImage])
  | list vs => exact absurd h (by simp [isDirectImage])

/-- C7: for every url value and every diameter, the icon builder yields a
spec with `icon_size = (diameter, diameter)`, centred anchor
`(diameter // 2, diameter // 2)` (floor division), and html that is the
round clipped image exactly when the url classifies as a direct image
reference, the neutral grey circle otherwise — the `logo_url and ...`
truthiness guard adds nothing beyond the classification. -/
theorem build_round_logo_divicon_spec (url : Value) (d : ℤ) :
    (buildRoundLogoDivicon url d).icon_size = (d, d) ∧
    (buildRoundLogoDivicon url d).icon_anchor = (Int.fdiv d 2, Int.fdiv d 2) ∧
    (buildRoundLogoDivicon url d).class_name = "capco-round-icon" ∧
    (buildRoundLogoDivicon url d).html =
      (if isDirectImage url then roundIconImgHtml url d else roundIconCircleHtml d) := by
  have hcond : (pyTruthy url && isDirectImage url) = isDirectImage url := by
    by_cases h : isDirectImage url = true
    · rw [h, isDirectImage_truthy url h]; rfl
    · have h' : isDirectImage url = false := by simpa using h
      rw [h']; simp
  refine ⟨rfl, rfl, rfl, ?_⟩
  unfold buildRoundLogoDivicon
  dsimp only
  rw [hcond]

/-! ## Claim C8: the popup image region -/

/-- C8: the popup html is the fixed template around an image region that
holds the `<img>` element referencing `card_image_url` exactly when that
url passes the same `_is_direct_image` test the icon renderer uses, and
the placeholder message (a direct image URL is required) otherwise. -/
theorem build_popup_html_image_region (r : Record) :
    buildPopupHtml r =
      popupPre ++
        (if isDirectImage (pyGetD r "card_image_url" (Value.str "")) then
          popupImgTag (pyGetD r "card_image_url" (Value.str ""))
        else popupNoImageDiv) ++ popupTail r ∧
    popupImgTag (pyGetD r "card_image_url" (Value.str "")) =
      "<img src=\"" ++ pyStrOf (pyGetD r "card_image_url" (Value.str "")) ++
      "\" alt=\"office\" style=\"max-width:100%; max-height:140px; display:block;\" />" ∧
    popupNoImageDiv = "<div style=\"color:#999;\">Sem imagem (use URL direta de imagem)</div>" :=
  ⟨rfl, rfl, rfl⟩

/-! ## Claim C9: valid order and one marker per valid record -/

theorem buildMarker_ok_of_coords (sz : ℤ) (r' : Record) (la lo : Value)
    (h1 : List.lookup "latitude" r' = some la)
    (h2 : List.lookup "longitude" r' = some lo) :
    ∃ m, buildMarker sz r' = .ok m := by
  refine ⟨Marker.mk (la, lo) (buildPopupHtml r')
    (pyStrOf (pyGetD r' "city" (.str "")) ++ " · " ++ pyStrOf (pyGetD r' "nome" (.str "")))
    (buildRoundLogoDivicon (pyGet r' "icon_image_url") sz), ?_⟩
  unfold buildMarker
  dsimp only
  rw [(pyGetItem_ok_iff _ _ _).mpr h1, (pyGetItem_ok_iff _ _ _).mpr h2]

theorem buildMarkers_ok (sz : ℤ) :
    ∀ v : List Record,
      (∀ r' ∈ v, ∃ m, buildMarker sz r' = .ok m) →
      ∃ ms, buildMarkers sz v = .ok ms ∧ ms.length = v.length ∧
        ∀ (j : ℕ) (hv : j < v.length) (hm : j < ms.length),
          buildMarker sz (v.get ⟨j, hv⟩) = .ok (ms.get ⟨j, hm⟩) := by
  intro v
  induction v with
  | nil =>
    intro _
    exact ⟨[], rfl, rfl, fun j hv _ => absurd hv (by simp)⟩
  | cons r rest ih =>
    intro hall
    obtain ⟨m, hm⟩ := hall r (by simp)
    obtain ⟨ms, hms, hlen, hpt⟩ := ih (fun r' hr' => hall r' (by simp [hr']))
    refine ⟨m :: ms, ?_, by simp [hlen], ?_⟩
    · simp only [buildMarkers, hm, hms]
    · intro j hv hmj
      cases j with
      | zero => simpa using hm
      | succ j => simpa using hpt j (by simpa using hv) (by simpa using hmj)

/-- C9: a successful validation leaves `valids` a sublist of the post-state
record list (source order minus rejected records, each valid record
originating from its accepting iteration), and the assembly loop then
builds exactly one marker per valid record, the `j`-th marker from the
`j`-th valid record. -/
theorem validate_then_assemble_order (recs v f : List Record) (e : List String) (sz : ℤ)
    (h : validateRecords recs = .ok (v, e, f)) :
    List.Sublist v f ∧ f.length = recs.length ∧
    (∀ r' ∈ v, ∃ (j : ℕ) (hj : j < recs.length),
      validateStep (1 + j) (recs.get ⟨j, hj⟩) = .ok (.valid r')) ∧
    ∃ ms, buildMarkers sz v = .ok ms ∧ ms.length = v.length ∧
      ∀ (j : ℕ) (hv : j < v.length) (hm : j < ms.length),
        buildMarker sz (v.get ⟨j, hv⟩) = .ok (ms.get ⟨j, hm⟩) := by
  obtain ⟨hcnt, hflen, hsub, hmem⟩ := validateAux_ok_spec recs 1 v e f h
  refine ⟨hsub, hflen, ?_, ?_⟩
  · intro r' hr'
    obtain ⟨j, hj, hfj, _, hstep⟩ := hmem r' hr'
    exact ⟨j, hj, hstep⟩
  · apply buildMarkers_ok
    intro r' hr'
    obtain ⟨j, hj, hfj, _, hstep⟩ := hmem r' hr'
    obtain ⟨-, lv, la, lov, lo, -, -, -, -, hr⟩ := validateStep_valid _ _ _ hstep
    subst hr
    refine buildMarker_ok_of_coords sz _ (Value.num la) (Value.num lo) ?_
      (lookup_pySet_self _ _ _)
    rw [lookup_pySet_ne _ _ _ _ (by decide), lookup_pySet_self]

/-- C9 witness, at one concrete valid record and icon size 44. -/
theorem validate_then_assemble_order_witness :
    List.Sublist [officeOk] [officeOk] ∧
    ([officeOk] : List Record).length = ([officeOk] : List Record).length ∧
    (∀ r' ∈ ([officeOk] : List Record), ∃ (j : ℕ) (hj : j < ([officeOk] : List Record).length),
      validateStep (1 + j) (([officeOk] : List Record).get ⟨j, hj⟩) = .ok (.valid r')) ∧
    ∃ ms, buildMarkers 44 [officeOk] = .ok ms ∧ ms.length = ([officeOk] : List Record).length ∧
      ∀ (j : ℕ) (hv : j < ([officeOk] : List Record).length) (hm : j < ms.length),
        buildMarker 44 (([officeOk] : List Record).get ⟨j, hv⟩) = .ok (ms.get ⟨j, hm⟩) :=
  validate_then_assemble_order [officeOk] [officeOk] [officeOk] [] 44 rfl
